import Mathlib

/-!
Shallow embedding of `lazy_property/__init__.py`: the `LazyProperty`
descriptor (a `property` subclass that caches the wrapped method's result
in a per-instance slot named `"_" ++ method name`) and its writable
subclass `LazyWritableProperty`.

A Python object is modelled as an attribute store: its own `__dict__`
together with the attributes reachable through its class (needed because
the cache-hit test in the source is `hasattr`, which also sees class-level
and inherited attributes).  A wrapped method is a function from the owning
instance to `Except E α`: a raised exception is an `Except.error`.
Descriptor reads return the outcome, the posterior instance state, and the
number of times the wrapped method was invoked, so "invokes the
computation exactly once" is a statement about the embedding, not a side
remark.
-/

/-- An attribute table: association list from attribute names to values,
first binding wins (models a Python namespace dictionary). -/
abbrev AttrDict (α : Type) := List (String × α)

/-- Lookup in an attribute table. -/
def lookupAttr {α : Type} : AttrDict α → String → Option α
  | [], _ => none
  | (k, v) :: rest, n => if k = n then some v else lookupAttr rest n

/-- A Python object as seen by the descriptor protocol: its instance
`__dict__` plus the attributes reachable via its class (class-level or
inherited), which `hasattr`/`getattr` fall back to. -/
structure PyInstance (α : Type) where
  dict : AttrDict α
  classAttrs : AttrDict α
deriving DecidableEq

/-- Python `getattr(instance, n, None)`: the instance `__dict__` shadows
class-level attributes. -/
def getattrOpt {α : Type} (inst : PyInstance α) (n : String) : Option α :=
  match lookupAttr inst.dict n with
  | some v => some v
  | none => lookupAttr inst.classAttrs n

/-- Python `hasattr(instance, n)`: attribute lookup succeeds. -/
def hasattr {α : Type} (inst : PyInstance α) (n : String) : Bool :=
  (getattrOpt inst n).isSome

/-- Python `setattr(instance, n, v)`: writes into the instance
`__dict__`, shadowing any previous binding. -/
def setattr {α : Type} (inst : PyInstance α) (n : String) (v : α) : PyInstance α :=
  { inst with dict := (n, v) :: inst.dict }

/-- A wrapped method: its `__name__`, its `__doc__`, and its body, a
function of the owning instance that either returns a value or raises. -/
structure Method (α E : Type) where
  name : String
  doc : Option String
  fn : PyInstance α → Except E α

/-- The `LazyProperty` descriptor state after construction: the wrapped
`method`, the derived `cache_name`, the `property` slots `fget` / `fset` /
`fdel`, and the documentation `doc` (the object's `__doc__`).  A custom
setter may update the instance or raise; a custom getter or deleter may
raise. -/
structure LazyProperty (α E : Type) where
  method : Method α E
  cache_name : String
  fget : Option (PyInstance α → Except E α)
  fset : Option (PyInstance α → α → Except E (PyInstance α))
  fdel : Option (PyInstance α → Except E (PyInstance α))
  doc : Option String

/-- Python truthiness of a `doc` value: `None` and the empty string are
falsy. -/
def pyTruthy : Option String → Bool
  | none => false
  | some s => !(s == "")

/-- Python `a or b` on `doc` values. -/
def pyOr (a b : Option String) : Option String :=
  if pyTruthy a then a else b

/-- `functools.update_wrapper(self, method)`: copies the wrapped method's
metadata — in particular its `__doc__` — onto the wrapper, overwriting
whatever the wrapper held. -/
def update_wrapper {α E : Type} (p : LazyProperty α E) (m : Method α E) :
    LazyProperty α E :=
  { p with doc := m.doc }

/-- `LazyProperty.__init__(self, method, fget, fset, fdel, doc)`: stores
the method, derives `cache_name = "_" + method.__name__`, computes
`doc = doc or method.__doc__`, calls `property.__init__` (which stores the
four slots and `doc`), then calls `update_wrapper(self, method)`. -/
def LazyProperty.init {α E : Type} (method : Method α E)
    (fget : Option (PyInstance α → Except E α))
    (fset : Option (PyInstance α → α → Except E (PyInstance α)))
    (fdel : Option (PyInstance α → Except E (PyInstance α)))
    (doc : Option String) : LazyProperty α E :=
  let doc := pyOr doc method.doc
  update_wrapper
    { method := method
      cache_name := "_" ++ method.name
      fget := fget
      fset := fset
      fdel := fdel
      doc := doc }
    method

/-- Outcome of `LazyProperty.__get__`: either the descriptor itself
(class-level access, `instance is None`), or a value together with the
posterior instance state and the number of invocations of the wrapped
method, or a propagated exception together with the (unchanged) instance
state and the invocation count. -/
inductive GetResult (α E : Type) where
  | descriptor
  | value (v : α) (inst : PyInstance α) (calls : Nat)
  | raised (e : E) (inst : PyInstance α) (calls : Nat)
deriving DecidableEq

/-- `LazyProperty.__get__(self, instance, owner)`: returns `self` when
`instance is None`; otherwise, if `hasattr(instance, self.cache_name)`
the stored attribute is returned unchanged; otherwise the custom getter
(if any, else the wrapped method) computes the result, which is stored
with `setattr(instance, self.cache_name, result)` and returned.  An
exception inside the getter or the method propagates before the slot is
written. -/
def LazyProperty.get {α E : Type} (p : LazyProperty α E)
    (inst? : Option (PyInstance α)) : GetResult α E :=
  match inst? with
  | none => .descriptor
  | some inst =>
    match getattrOpt inst p.cache_name with
    | some result => .value result inst 0
    | none =>
      match p.fget with
      | some g =>
        match g inst with
        | .ok result => .value result (setattr inst p.cache_name result) 0
        | .error e => .raised e inst 0
      | none =>
        match p.method.fn inst with
        | .ok result => .value result (setattr inst p.cache_name result) 1
        | .error e => .raised e inst 1

/-- Outcome of a descriptor write: `invalidTarget` is the
`AttributeError` raised explicitly when there is no owning instance;
`readOnly` is the `AttributeError` raised by the inherited
`property.__set__` when no setter exists; `ok` and `raised` carry the
posterior instance state. -/
inductive SetResult (α E : Type) where
  | invalidTarget
  | readOnly (inst : PyInstance α)
  | ok (inst : PyInstance α)
  | raised (e : E) (inst : PyInstance α)
deriving DecidableEq

/-- The write path of a plain `LazyProperty`: the inherited
`property.__set__`, which raises `AttributeError` when `fset` is `None`
and otherwise calls `fset(instance, value)`. -/
def LazyProperty.propertySet {α E : Type} (p : LazyProperty α E)
    (inst : PyInstance α) (value : α) : SetResult α E :=
  match p.fset with
  | none => .readOnly inst
  | some s =>
    match s inst value with
    | .ok inst' => .ok inst'
    | .error e => .raised e inst

/-- `LazyWritableProperty` adds only a `__set__` method; its read path and
construction are inherited from `LazyProperty` unchanged. -/
abbrev LazyWritableProperty (α E : Type) := LazyProperty α E

/-- `LazyWritableProperty.__set__(self, instance, value)`: raises
`AttributeError` when `instance is None`; otherwise, when `fset` is
`None`, stores `value` via `setattr(instance, self.cache_name, value)`;
otherwise delegates to `self.fset(instance, value)`. -/
def LazyWritableProperty.set {α E : Type} (p : LazyWritableProperty α E)
    (inst? : Option (PyInstance α)) (value : α) : SetResult α E :=
  match inst? with
  | none => .invalidTarget
  | some inst =>
    match p.fset with
    | none => .ok (setattr inst p.cache_name value)
    | some s =>
      match s inst value with
      | .ok inst' => .ok inst'
      | .error e => .raised e inst

/-- Concrete example method used by witnesses: computes the value 5. -/
def exMethod : Method Nat String :=
  { name := "x", doc := some "compute x", fn := fun _ => .ok 5 }

/-- Concrete example descriptor with no custom getter, setter, deleter or
documentation. -/
def exProp : LazyProperty Nat String :=
  LazyProperty.init exMethod none none none none

/-- Concrete example instance with empty attribute stores. -/
def exInst : PyInstance Nat := { dict := [], classAttrs := [] }

/-- Concrete example method that always raises. -/
def exFailMethod : Method Nat String :=
  { name := "y", doc := none, fn := fun _ => .error "boom" }

/-- Concrete example descriptor wrapping the failing method. -/
def exFailProp : LazyProperty Nat String :=
  LazyProperty.init exFailMethod none none none none

/-- Concrete example custom setter storing into a different slot. -/
def exSetter : PyInstance Nat → Nat → Except String (PyInstance Nat) :=
  fun i v => .ok (setattr i "custom" v)

/-- Concrete example writable descriptor with the custom setter. -/
def exPropWS : LazyWritableProperty Nat String :=
  LazyProperty.init exMethod none (some exSetter) none none

/-- Concrete example instance whose class carries an attribute named like
the cache slot. -/
def exShadowInst : PyInstance Nat := { dict := [], classAttrs := [("_x", 42)] }

/-- Concrete example instance holding a cached value in its slot. -/
def exCachedInst : PyInstance Nat := { dict := [("_x", 7)], classAttrs := [] }

/-- A freshly written slot is found by attribute lookup. -/
theorem getattrOpt_setattr_self {α : Type} (inst : PyInstance α)
    (n : String) (v : α) : getattrOpt (setattr inst n v) n = some v := by
  simp [getattrOpt, setattr, lookupAttr]

/-- C1: for an instance whose cache slot is absent, reading a
`LazyProperty` bound to computation `f` (no custom getter) invokes `f`
once, stores the result in the per-instance slot and returns it; reading
again from the resulting state returns the stored value with zero further
invocations of `f` and leaves the state unchanged. -/
theorem C1_read_twice_invokes_once {α E : Type} (p : LazyProperty α E)
    (inst : PyInstance α) (v : α)
    (hfget : p.fget = none)
    (hslot : getattrOpt inst p.cache_name = none)
    (hm : p.method.fn inst = .ok v) :
    p.get (some inst) = .value v (setattr inst p.cache_name v) 1 ∧
    p.get (some (setattr inst p.cache_name v)) =
      .value v (setattr inst p.cache_name v) 0 := by
  constructor
  · simp [LazyProperty.get, hslot, hfget, hm]
  · simp [LazyProperty.get, getattrOpt_setattr_self]

/-- C1 witness: the example property on the empty instance. -/
theorem C1_witness :
    exProp.fget = none ∧
    getattrOpt exInst exProp.cache_name = none ∧
    exProp.method.fn exInst = .ok 5 ∧
    (exProp.get (some exInst) = .value 5 (setattr exInst exProp.cache_name 5) 1 ∧
     exProp.get (some (setattr exInst exProp.cache_name 5)) =
       .value 5 (setattr exInst exProp.cache_name 5) 0) :=
  ⟨rfl, rfl, rfl, C1_read_twice_invokes_once exProp exInst 5 rfl rfl rfl⟩

/-- C2: when the computation raises on first read, the error propagates
unmodified, the cache slot is not populated (the posterior state is the
unchanged pre-state), and a subsequent read from the resulting state
re-invokes the computation (invocation count 1 again). -/
theorem C2_error_propagates_no_poison {α E : Type} (p : LazyProperty α E)
    (inst : PyInstance α) (e : E)
    (hfget : p.fget = none)
    (hslot : getattrOpt inst p.cache_name = none)
    (hm : p.method.fn inst = .error e) :
    p.get (some inst) = .raised e inst 1 ∧
    (∀ i' : PyInstance α, p.get (some inst) = .raised e i' 1 →
      p.get (some i') = .raised e i' 1) := by
  have h1 : p.get (some inst) = .raised e inst 1 := by
    simp [LazyProperty.get, hslot, hfget, hm]
  refine ⟨h1, ?_⟩
  intro i' h2
  rw [h1] at h2
  cases h2
  exact h1

/-- C2 witness: the failing example property on the empty instance. -/
theorem C2_witness :
    exFailProp.fget = none ∧
    getattrOpt exInst exFailProp.cache_name = none ∧
    exFailProp.method.fn exInst = .error "boom" ∧
    (exFailProp.get (some exInst) = .raised "boom" exInst 1 ∧
     (∀ i' : PyInstance Nat,
        exFailProp.get (some exInst) = .raised "boom" i' 1 →
        exFailProp.get (some i') = .raised "boom" i' 1)) :=
  ⟨rfl, rfl, rfl,
   C2_error_propagates_no_poison exFailProp exInst "boom" rfl rfl rfl⟩

/-- C3: a write through `LazyWritableProperty.__set__` never invokes the
computation (the outcome is unchanged under any replacement of the wrapped
method's body); with no custom setter it stores the value directly into
the cache slot — so a subsequent read returns it with zero invocations,
even if the attribute was never read — and with a custom setter it
delegates entirely to it. -/
theorem C3_writable_set_semantics {α E : Type} (p : LazyWritableProperty α E)
    (inst : PyInstance α) (x : α) (m' : Method α E) :
    LazyWritableProperty.set { p with method := m' } (some inst) x =
      LazyWritableProperty.set p (some inst) x ∧
    (p.fset = none →
      LazyWritableProperty.set p (some inst) x = .ok (setattr inst p.cache_name x) ∧
      p.get (some (setattr inst p.cache_name x)) =
        .value x (setattr inst p.cache_name x) 0) ∧
    (∀ (s : PyInstance α → α → Except E (PyInstance α)) (inst' : PyInstance α),
      p.fset = some s → s inst x = .ok inst' →
      LazyWritableProperty.set p (some inst) x = .ok inst') := by
  refine ⟨rfl, ?_, ?_⟩
  · intro hfset
    constructor
    · simp [LazyWritableProperty.set, hfset]
    · simp [LazyProperty.get, getattrOpt_setattr_self]
  · intro s inst' hfset hs
    simp [LazyWritableProperty.set, hfset, hs]

/-- C3 witness: the direct-store branch on the example writable property
and the delegating branch on the example property with a custom setter. -/
theorem C3_witness :
    (exProp.fset = none ∧
     LazyWritableProperty.set exProp (some exInst) 9 =
       .ok (setattr exInst exProp.cache_name 9) ∧
     exProp.get (some (setattr exInst exProp.cache_name 9)) =
       .value 9 (setattr exInst exProp.cache_name 9) 0) ∧
    (exPropWS.fset = some exSetter ∧
     exSetter exInst 9 = .ok (setattr exInst "custom" 9) ∧
     LazyWritableProperty.set exPropWS (some exInst) 9 =
       .ok (setattr exInst "custom" 9)) :=
  ⟨⟨rfl, (C3_writable_set_semantics exProp exInst 9 exMethod).2.1 rfl⟩,
   ⟨rfl, rfl,
    (C3_writable_set_semantics exPropWS exInst 9 exMethod).2.2
      exSetter (setattr exInst "custom" 9) rfl rfl⟩⟩

/-- C4: writing through a plain `LazyProperty` with no custom setter hits
the inherited read-only write path, which raises an attribute error and
leaves the instance state — hence any cached slot value — unchanged: a
read after the failed write still returns the cached value. -/
theorem C4_readonly_write_rejected {α E : Type} (p : LazyProperty α E)
    (inst : PyInstance α) (x : α)
    (hfset : p.fset = none) :
    p.propertySet inst x = .readOnly inst ∧
    (∀ r : α, getattrOpt inst p.cache_name = some r →
      p.get (some inst) = .value r inst 0) := by
  constructor
  · simp [LazyProperty.propertySet, hfset]
  · intro r hr
    simp [LazyProperty.get, hr]

/-- C4 witness: the example read-only property on an instance with a
populated cache slot. -/
theorem C4_witness :
    exProp.fset = none ∧
    getattrOpt exCachedInst exProp.cache_name = some 7 ∧
    (exProp.propertySet exCachedInst 9 = .readOnly exCachedInst ∧
     exProp.get (some exCachedInst) = .value 7 exCachedInst 0) :=
  ⟨rfl, rfl,
   ⟨(C4_readonly_write_rejected exProp exCachedInst 9 rfl).1,
    (C4_readonly_write_rejected exProp exCachedInst 9 rfl).2 7 rfl⟩⟩

/-- C5: class-level access (`__get__` with no owning instance) returns the
descriptor object itself — no value is computed, no state is produced and
no cache slot is created. -/
theorem C5_class_level_returns_descriptor {α E : Type}
    (p : LazyProperty α E) : p.get none = .descriptor :=
  rfl

/-- C6: for two distinct instances of the same owning class, each first
read computes independently: reading (and caching on) `i1` does not change
what reading `i2` does — each invokes the computation once on its own
instance and stores into its own slot. -/
theorem C6_per_instance_isolation {α E : Type} (p : LazyProperty α E)
    (i1 i2 : PyInstance α) (v1 v2 : α)
    (hfget : p.fget = none)
    (hslot1 : getattrOpt i1 p.cache_name = none)
    (hslot2 : getattrOpt i2 p.cache_name = none)
    (hm1 : p.method.fn i1 = .ok v1)
    (hm2 : p.method.fn i2 = .ok v2) :
    p.get (some i1) = .value v1 (setattr i1 p.cache_name v1) 1 ∧
    p.get (some i2) = .value v2 (setattr i2 p.cache_name v2) 1 := by
  constructor
  · simp [LazyProperty.get, hslot1, hfget, hm1]
  · simp [LazyProperty.get, hslot2, hfget, hm2]

/-- C6 witness: two distinct empty instances of the example class; the one
with a nonempty class attribute table unrelated to the slot plays `i2`. -/
theorem C6_witness :
    exProp.fget = none ∧
    getattrOpt exInst exProp.cache_name = none ∧
    getattrOpt { dict := [("z", 0)], classAttrs := [] } exProp.cache_name = none ∧
    exProp.method.fn exInst = .ok 5 ∧
    exProp.method.fn { dict := [("z", 0)], classAttrs := [] } = .ok 5 ∧
    (exProp.get (some exInst) = .value 5 (setattr exInst exProp.cache_name 5) 1 ∧
     exProp.get (some { dict := [("z", 0)], classAttrs := [] }) =
       .value 5 (setattr { dict := [("z", 0)], classAttrs := [] } exProp.cache_name 5) 1) :=
  ⟨rfl, rfl, by simp [getattrOpt, lookupAttr, exProp, LazyProperty.init, update_wrapper, exMethod],
   rfl, rfl,
   C6_per_instance_isolation exProp exInst { dict := [("z", 0)], classAttrs := [] }
     5 5 rfl rfl
     (by simp [getattrOpt, lookupAttr, exProp, LazyProperty.init, update_wrapper, exMethod])
     rfl rfl⟩

/-- C7: the cache slot name is exactly an underscore prepended to the
computation's name, and the cache-hit test is an attribute lookup that
also sees class-level attributes: when the instance `__dict__` lacks the
slot but the class carries an attribute of that name, the read returns the
class attribute's value with zero invocations of the computation and
without populating any per-instance slot. -/
theorem C7_hasattr_sees_class_attrs {α E : Type} (m : Method α E)
    (g : Option (PyInstance α → Except E α))
    (s : Option (PyInstance α → α → Except E (PyInstance α)))
    (d : Option (PyInstance α → Except E (PyInstance α)))
    (doc : Option String)
    (p : LazyProperty α E) (inst : PyInstance α) (w : α) :
    (LazyProperty.init m g s d doc).cache_name = "_" ++ m.name ∧
    (lookupAttr inst.dict p.cache_name = none →
     lookupAttr inst.classAttrs p.cache_name = some w →
     p.get (some inst) = .value w inst 0) := by
  constructor
  · rfl
  · intro hdict hclass
    simp [LazyProperty.get, getattrOpt, hdict, hclass]

/-- C7 witness: the example class carries an attribute `_x` equal to 42;
reading the lazy attribute on a fresh instance returns 42, invokes
nothing, and leaves the instance unchanged. -/
theorem C7_witness :
    exProp.cache_name = "_" ++ exMethod.name ∧
    lookupAttr exShadowInst.dict exProp.cache_name = none ∧
    lookupAttr exShadowInst.classAttrs exProp.cache_name = some 42 ∧
    exProp.get (some exShadowInst) = .value 42 exShadowInst 0 :=
  ⟨(C7_hasattr_sees_class_attrs exMethod none none none none exProp exInst 42).1,
   rfl, rfl,
   (C7_hasattr_sees_class_attrs exMethod none none none none exProp
     exShadowInst 42).2 rfl rfl⟩

/-- C8: a write through `LazyWritableProperty.__set__` with no owning
instance raises the explicit attribute error before any slot is touched:
the outcome is `invalidTarget`, which carries no posterior state. -/
theorem C8_set_without_instance_fails {α E : Type}
    (p : LazyWritableProperty α E) (v : α) :
    LazyWritableProperty.set p none v = .invalidTarget :=
  rfl

/-- C9: when no documentation argument is supplied at construction, the
descriptor's documentation equals the wrapped method's docstring. -/
theorem C9_doc_defaults_to_method_doc {α E : Type} (m : Method α E)
    (g : Option (PyInstance α → Except E α))
    (s : Option (PyInstance α → α → Except E (PyInstance α)))
    (d : Option (PyInstance α → Except E (PyInstance α))) :
    (LazyProperty.init m g s d none).doc = m.doc :=
  rfl

/-- C10: the `update_wrapper` call performed after `property.__init__`
copies the method's docstring onto the descriptor, so the descriptor's
documentation equals the method's docstring for every documentation
argument — an explicitly supplied one is overwritten. -/
theorem C10_doc_always_method_doc {α E : Type} (m : Method α E)
    (g : Option (PyInstance α → Except E α))
    (s : Option (PyInstance α → α → Except E (PyInstance α)))
    (d : Option (PyInstance α → Except E (PyInstance α)))
    (docArg : Option String) :
    (LazyProperty.init m g s d docArg).doc = m.doc :=
  rfl
